import Mathlib

/-!
Verification of the donor geo-targeting dashboard core
(`streamlit_in_snowflake_app.py`).

Shallow embedding conventions:
* a pandas dataframe of donor rows is a `List Record`; nullable columns are
  `Option` fields, and pandas `NaN`-comparison semantics (any comparison with
  a null is false) are embedded in the `optGe` / `optLe` / `isinStr` helpers;
* monetary amounts and coordinates are exact rationals (`Rat`); the source
  uses machine floats, but every claim under study is either exact at the
  probed points (0, max, the clamp bounds) or independent of rounding;
* the external Snowflake H3 index function `H3_LATLNG_TO_CELL_STRING` is an
  opaque parameter `h3Index`; the external boundary capability
  (`session.sql` probe and per-cell `H3_CELL_TO_BOUNDARY_WKT` queries) is an
  oracle `BoundaryEnv`, with `Except.error` standing for a raised exception.
-/

namespace DonorGeo

/-- One row of the `ALUMNI_DONORS` table as consumed by the pipeline.
Columns that can be null in the frame are `Option` fields. -/
structure Record where
  fullName : String
  zipCode : Option String
  graduationYear : Option Int
  annualDonationAmount : Option Rat
  cumulativeDonationAmount : Option Rat
  donorSegment : Option String
  latitude : Option Rat
  longitude : Option Rat
deriving Repr, DecidableEq

/-- Pandas `series.isin(xs)` on a nullable string column: a null value is in
no list. -/
def isinStr (v : Option String) (xs : List String) : Bool :=
  match v with
  | some x => xs.contains x
  | none => false

/-- Pandas `series >= b` on a nullable column: false on null (NaN). -/
def optGe {α : Type} [LinearOrder α] (v : Option α) (b : α) : Bool :=
  match v with
  | some x => decide (b ≤ x)
  | none => false

/-- Pandas `series <= b` on a nullable column: false on null (NaN). -/
def optLe {α : Type} [LinearOrder α] (v : Option α) (b : α) : Bool :=
  match v with
  | some x => decide (x ≤ b)
  | none => false

/-- `apply_filters` (source lines 100-122).  A `[]` zip/segment list and a
`none` range model the falsy arguments under `if zip_codes:` etc.; a slider
always hands a (truthy) pair, modelled by `some`.  Each stage rebinds
`filtered_df` to a fresh frame; the pure result is the final frame's
contents. -/
def applyFilters (df : List Record) (zipCodes : List String)
    (gradYears : Option (Int × Int)) (donationRange : Option (Rat × Rat))
    (donorSegments : List String) : List Record :=
  let filtered0 := df
  let filtered1 :=
    match zipCodes with
    | [] => filtered0
    | _ :: _ => filtered0.filter fun r => isinStr r.zipCode zipCodes
  let filtered2 :=
    match gradYears with
    | none => filtered1
    | some yr => filtered1.filter fun r =>
        optGe r.graduationYear yr.1 && optLe r.graduationYear yr.2
  let filtered3 :=
    match donationRange with
    | none => filtered2
    | some dr => filtered2.filter fun r =>
        optGe r.annualDonationAmount dr.1 && optLe r.annualDonationAmount dr.2
  let filtered4 :=
    match donorSegments with
    | [] => filtered3
    | _ :: _ => filtered3.filter fun r => isinStr r.donorSegment donorSegments
  filtered4

/-- The conjunction of the four optional predicates of `apply_filters`:
an absent filter constrains nothing, both range predicates are inclusive on
both bounds. -/
def filterPred (zipCodes : List String) (gradYears : Option (Int × Int))
    (donationRange : Option (Rat × Rat)) (donorSegments : List String)
    (r : Record) : Bool :=
  (match zipCodes with
    | [] => true
    | _ :: _ => isinStr r.zipCode zipCodes) &&
  (match gradYears with
    | none => true
    | some yr => optGe r.graduationYear yr.1 && optLe r.graduationYear yr.2) &&
  (match donationRange with
    | none => true
    | some dr => optGe r.annualDonationAmount dr.1 &&
        optLe r.annualDonationAmount dr.2) &&
  (match donorSegments with
    | [] => true
    | _ :: _ => isinStr r.donorSegment donorSegments)

/-- A record takes part in spatial drawing only with non-null latitude and
longitude (`dropna(subset=['LATITUDE', 'LONGITUDE'])`, source line 263). -/
def validCoords (r : Record) : Bool :=
  r.latitude.isSome && r.longitude.isSome

/-- Row validity for the on-the-fly H3 path (source line 128):
`df[['LATITUDE', 'LONGITUDE', 'ANNUAL_DONATION_AMOUNT',
'CUMULATIVE_DONATION_AMOUNT']].dropna()` drops a row that is null in any of
the four columns. -/
def valid4 (r : Record) : Bool :=
  r.latitude.isSome && r.longitude.isSome &&
  r.annualDonationAmount.isSome && r.cumulativeDonationAmount.isSome

/-- The `valid_data` frame of source line 128. -/
def validData (df : List Record) : List Record := df.filter valid4

/-- H3 cell of a row: `H3_LATLNG_TO_CELL_STRING(LATITUDE, LONGITUDE, res)`
(source line 144), with the Snowflake H3 function an opaque parameter.
The function is only ever applied to rows with non-null coordinates, so the
`getD` defaults are never read. -/
def cellOf (h3Index : Rat → Rat → Nat → String) (res : Nat) (r : Record) :
    String :=
  h3Index (r.latitude.getD 0) (r.longitude.getD 0) res

/-- One step of `group_by("H3_CELL")`: append a row to its cell's group,
keeping first-appearance order of cells. -/
def addToGroup : List (String × List Record) → String → Record →
    List (String × List Record)
  | [], c, r => [(c, [r])]
  | (c', rs) :: t, c, r =>
    if c' = c then (c', rs ++ [r]) :: t else (c', rs) :: addToGroup t c r

/-- `group_by("H3_CELL")` over the valid rows (source line 148). -/
def groupByCell (h3Index : Rat → Rat → Nat → String) (res : Nat)
    (rows : List Record) : List (String × List Record) :=
  rows.foldl (fun acc r => addToGroup acc (cellOf h3Index res r) r) []

/-- The aggregate columns of one H3 cell (source lines 148-155). -/
structure CellAgg where
  donorCount : Nat
  totalAnnual : Rat
  avgAnnual : Rat
  totalCumulative : Rat
  centerLat : Rat
  centerLon : Rat
deriving Repr, DecidableEq

/-- Aggregates of one group: `COUNT(*)`, `SUM` and `AVG` of the annual
amount, `SUM` of the cumulative amount, `AVG` of latitude and longitude
(source lines 148-155).  The SQL `ROUND(avg, 2)` display rounding of the
average is not modelled; no claim depends on it.  Groups are never empty,
so the divisions by the count never divide by zero. -/
def aggOfGroup (rs : List Record) : CellAgg :=
  { donorCount := rs.length
    totalAnnual := (rs.map fun r => r.annualDonationAmount.getD 0).sum
    avgAnnual := (rs.map fun r => r.annualDonationAmount.getD 0).sum / rs.length
    totalCumulative := (rs.map fun r => r.cumulativeDonationAmount.getD 0).sum
    centerLat := (rs.map fun r => r.latitude.getD 0).sum / rs.length
    centerLon := (rs.map fun r => r.longitude.getD 0).sum / rs.length }

/-- Insertion step of `order_by(col("TOTAL_ANNUAL").desc())` (source line
155). -/
def insertByTotalDesc (g : String × CellAgg) :
    List (String × CellAgg) → List (String × CellAgg)
  | [] => [g]
  | h :: t =>
    if h.2.totalAnnual ≤ g.2.totalAnnual then g :: h :: t
    else h :: insertByTotalDesc g t

/-- Sort the aggregates by total annual amount, descending. -/
def sortByTotalDesc (l : List (String × CellAgg)) : List (String × CellAgg) :=
  l.foldr insertByTotalDesc []

/-- The `h3_agg` frame of source lines 148-158: keep the rows that are
non-null in the four used columns, attach the H3 cell, group by cell,
aggregate, order by total annual amount descending. -/
def aggregateCells (h3Index : Rat → Rat → Nat → String) (res : Nat)
    (df : List Record) : List (String × CellAgg) :=
  sortByTotalDesc
    ((groupByCell h3Index res (validData df)).map fun g => (g.1, aggOfGroup g.2))

/-- Sum of `DONOR_COUNT` over all cells of an aggregate mapping. -/
def sumCounts (agg : List (String × CellAgg)) : Nat :=
  (agg.map fun g => g.2.donorCount).sum

/-- Sum of the group sizes of a grouping. -/
def groupSizes (gs : List (String × List Record)) : Nat :=
  (gs.map fun g => g.2.length).sum

/-- Donor row for the end-to-end filter scenario: a donor at zip 29680 with
a given annual donation amount; the other columns are concrete but
irrelevant to the scenario. -/
def scenarioDonor (nm : String) (amount : Rat) : Record :=
  { fullName := nm, zipCode := some "29680", graduationYear := some 2005,
    annualDonationAmount := some amount,
    cumulativeDonationAmount := some amount,
    donorSegment := some "Annual Donor",
    latitude := some 34, longitude := some (-82) }

/-- The scenario dataset with annual amounts 100, 5000, 12000, 300. -/
def scenarioRoster : List Record :=
  [scenarioDonor "A" 100, scenarioDonor "B" 5000,
   scenarioDonor "C" 12000, scenarioDonor "D" 300]

/-- A donor with valid coordinates but a null annual donation amount: the
`dropna` over the four used columns drops this row even though its
coordinates are valid. -/
def nullAnnualDonor : Record :=
  { fullName := "N", zipCode := some "29680", graduationYear := some 2000,
    annualDonationAmount := none, cumulativeDonationAmount := some 0,
    donorSegment := some "Annual Donor",
    latitude := some 34, longitude := some (-82) }

/-- A concrete instantiation of the opaque H3 index function, used to
evaluate the aggregation at concrete inputs. -/
def constIndex : Rat → Rat → Nat → String := fun _ _ _ => "872830828ffffff"

/-- Does the character list `s` start with the pattern `p`? -/
def startsWithL : List Char → List Char → Bool
  | _, [] => true
  | [], _ :: _ => false
  | a :: as, b :: bs => a = b && startsWithL as bs

/-- Python `p in s` on character lists (`containsL p s`). -/
def containsL (p : List Char) : List Char → Bool
  | [] => startsWithL [] p
  | c :: t => startsWithL (c :: t) p || containsL p t

/-- Python `pat in s` for strings. -/
def strContains (s pat : String) : Bool := containsL pat.toList s.toList

/-- Fuel-driven replacement of every occurrence of `p` by `r`, scanning
left to right.  All patterns used by the source are non-empty, and the
initial fuel is the string length, so the fuel never runs out. -/
def replaceFuel (p r : List Char) : Nat → List Char → List Char
  | 0, s => s
  | _ + 1, [] => []
  | n + 1, c :: t =>
    if startsWithL (c :: t) p then r ++ replaceFuel p r n ((c :: t).drop p.length)
    else c :: replaceFuel p r n t

/-- Python `s.replace(pat, rep)`. -/
def strReplace (s pat rep : String) : String :=
  String.mk (replaceFuel pat.toList rep.toList s.length s.toList)

/-- Fuel-driven split on a (non-empty) separator pattern, accumulating the
current piece in reverse. -/
def splitFuel (p : List Char) : Nat → List Char → List Char → List (List Char)
  | 0, acc, s => [acc.reverse ++ s]
  | n + 1, acc, s =>
    if startsWithL s p then acc.reverse :: splitFuel p n [] (s.drop p.length)
    else
      match s with
      | [] => [acc.reverse]
      | c :: t => splitFuel p n (c :: acc) t

/-- Python `s.split(pat)` for a non-empty explicit separator: every
occurrence separates, empty pieces are kept. -/
def strSplitOn (s pat : String) : List String :=
  (splitFuel pat.toList (s.length + 1) [] s.toList).map String.mk

/-- The whitespace characters stripped by Python `str.strip()`. -/
def isPySpace (c : Char) : Bool :=
  c = ' ' || c = '\t' || c = '\n' || c = '\r' || c = '\x0b' || c = '\x0c'

/-- Python `s.strip()`. -/
def stripStr (s : String) : String :=
  String.mk (((s.toList.dropWhile isPySpace).reverse.dropWhile isPySpace).reverse)

/-- Decimal digit test. -/
def isDigitCh (c : Char) : Bool := '0' ≤ c && c ≤ '9'

/-- Model of Python `float(tok)` acceptance, restricted to optionally
signed plain decimal literals (`123`, `1.5`, `1.`, `.5`).  Python also
accepts exponent, infinity and nan forms; the WKT coordinates emitted by
the boundary capability only use plain decimals, and every concrete token
probed by a theorem below is classified identically by Python and by this
model. -/
def pyFloatOk (tok : String) : Bool :=
  let cs := tok.toList
  let cs :=
    match cs with
    | '+' :: t => t
    | '-' :: t => t
    | t => t
  match splitFuel ['.'] (cs.length + 1) [] cs with
  | [a] => !a.isEmpty && a.all isDigitCh
  | [a, b] => !(a ++ b).isEmpty && (a ++ b).all isDigitCh
  | _ => false

/-- One iteration of the coordinate-pair loop (source lines 368-375).
In the source, `lats.append(float(lat))` runs before
`lons.append(float(lon))`, and the bare `except` then skips to the next
pair: when the latitude token parses but the longitude token raises, the
pair's latitude stays appended while its longitude is missing. -/
def parsePair (acc : List String × List String) (pair : String) :
    List String × List String :=
  if strContains pair " " then
    match strSplitOn (stripStr pair) " " with
    | [lonTok, latTok] =>
      if pyFloatOk latTok then
        if pyFloatOk lonTok then (acc.1 ++ [latTok], acc.2 ++ [lonTok])
        else (acc.1 ++ [latTok], acc.2)
      else acc
    | _ => acc
  else acc

/-- WKT parsing of source lines 362-375: strip the polygon wrappers, split
on the pair separator, and collect the latitude and longitude tokens that
parse as floats (floats are represented by their source tokens). -/
def parseWkt (wkt : String) : List String × List String :=
  (strSplitOn (strReplace (strReplace wkt "POLYGON((" "") "))" "") ", ").foldl
    parsePair ([], [])

/-- Modelled from the spec (claim C5): the number of coordinate pairs of a
boundary response that parse into a fully valid (lat, lon) vertex pair,
i.e. whose latitude and longitude tokens both parse as floats. -/
def validPairCount (wkt : String) : Nat :=
  ((strSplitOn (strReplace (strReplace wkt "POLYGON((" "") "))" "") ", ").filter
    fun pair =>
      strContains pair " " &&
      (match strSplitOn (stripStr pair) " " with
        | [lonTok, latTok] => pyFloatOk lonTok && pyFloatOk latTok
        | _ => false)).length

/-- A parsed cell boundary (entry of `boundaries_data`, source lines
378-382): the cell id and the latitude and longitude coordinate lists. -/
structure Boundary where
  h3_cell : String
  lats : List String
  lons : List String
deriving Repr, DecidableEq

/-- Oracle for the external Snowflake boundary capability.  `probe` is the
outcome of the single `H3_CELL_TO_BOUNDARY_WKT('872830828ffffff')` test
query (source lines 320-321): `Except.error msg` models a raised exception
with message `msg`.  `fetch c` is the outcome of the per-cell boundary
query of source lines 345-351: an error models a transport/remote
exception, an `Except.ok` value is the `BOUNDARY_WKT` column as text. -/
structure BoundaryEnv where
  probe : Except String Unit
  fetch : String → Except Unit String

/-- The known-good probe cell of source line 320. -/
def testCell : String := "872830828ffffff"

/-- Classification of a probe failure as capability-not-found (source line
324): the message holds "Unknown function" or "does not exist". -/
def isCapNotFound (msg : String) : Bool :=
  strContains msg "Unknown function" || strContains msg "does not exist"

/-- Outcome of one boundary-resolution pass, with the effects made
explicit: the collected boundaries, the `function_available` flag (`none`
when the pass returned before probing), the number of probe queries
issued, and the cells for which a per-cell boundary query was issued, in
order. -/
structure ResolveResult where
  boundaries : List Boundary
  functionAvailable : Option Bool
  probeCalls : Nat
  requested : List String
deriving Repr, DecidableEq

/-- Per-cell body of the loop at source lines 343-396: a transport error
skips the cell (`except cell_error: continue`); otherwise the response is
parsed, and the cell is appended exactly when the response is truthy,
holds "POLYGON", and at least 3 latitude tokens parsed
(`if len(lats) >= 3`). -/
def processCell (env : BoundaryEnv) (acc : List Boundary) (cell : String) :
    List Boundary :=
  match env.fetch cell with
  | .error _ => acc
  | .ok wkt =>
    if wkt ≠ "" && strContains wkt "POLYGON" then
      let parsed := parseWkt wkt
      if 3 ≤ parsed.1.length then acc ++ [⟨cell, parsed.1, parsed.2⟩]
      else acc
    else acc

/-- `get_h3_boundaries_from_snowflake` (source lines 298-403): empty input
returns immediately; the candidate list is capped at 50 and null entries
dropped; one probe decides availability (any probe failure leaves
`function_available = False` and returns the empty list); on success the
first 10 remaining cells are fetched one by one. -/
def get_h3_boundaries_from_snowflake (env : BoundaryEnv)
    (h3Cells : List (Option String)) : ResolveResult :=
  if h3Cells.length = 0 then ⟨[], none, 0, []⟩
  else
    let h3List := (h3Cells.take 50).filterMap id
    if h3List.isEmpty then ⟨[], none, 0, []⟩
    else
      match env.probe with
      | .error _ => ⟨[], some false, 1, []⟩
      | .ok _ =>
        let toProcess := h3List.take 10
        ⟨toProcess.foldl (processCell env) [], some true, 1, toProcess⟩

/-- Environment exhibiting the latitude/longitude desynchronisation: every
per-cell query answers with a WKT text whose longitude tokens do not parse
as floats while the latitude tokens do. -/
def desyncEnv : BoundaryEnv :=
  { probe := .ok (), fetch := fun _ => .ok "POLYGON((x 1.0, x 2.0, x 3.0))" }

/-- Environment with a transport error on cell "a" and a well-formed WKT
response on every other cell. -/
def skipEnv : BoundaryEnv :=
  { probe := .ok ()
    fetch := fun c =>
      if c = "a" then .error ()
      else .ok "POLYGON((-82.1 34.5, -82.2 34.6, -82.3 34.7, -82.1 34.5))" }

/-- Environment whose probe raises the capability-not-found message. -/
def unavailableEnv : BoundaryEnv :=
  { probe := .error "Unknown function H3_CELL_TO_BOUNDARY_WKT"
    fetch := fun _ => .error () }

/-- One hexagon trace added by `fig.add_trace` (source lines 184-200): the
closed vertex ring and the fill opacity. -/
structure HexTrace where
  cell : String
  lats : List String
  lons : List String
  fillOpacity : Rat
deriving Repr, DecidableEq

/-- The visualization produced by one render cycle: true hexagon polygons
(S0), aggregate cluster markers (S1, the `px.scatter_mapbox` over
`h3_agg`), raw per-donor points (S2, `create_simple_scatter_map`), or the
explicit no-data signal (S3, the `st.error` plus `None` return). -/
inductive RenderInstruction where
  | hexagonPolygons (traces : List HexTrace)
  | aggregateMarkers (agg : List (String × CellAgg))
  | rawPoints (pts : List Record)
  | noData
deriving Repr, DecidableEq

/-- Position of a render instruction in the fallback order S0..S3. -/
def strategyIndex : RenderInstruction → Nat
  | .hexagonPolygons _ => 0
  | .aggregateMarkers _ => 1
  | .rawPoints _ => 2
  | .noData => 3

/-- `create_simple_scatter_map` (source lines 259-296): drop rows with
null coordinates; an empty remainder yields the explicit no-data signal
(`st.error` and `return None`), otherwise one marker per record. -/
def create_simple_scatter_map (df : List Record) : RenderInstruction :=
  let valid_df := df.filter validCoords
  if valid_df.isEmpty then .noData else .rawPoints valid_df

/-- `h3_agg['TOTAL_ANNUAL'].max()` over the aggregate frame (never called
on an empty frame by the source). -/
def maxTotal (agg : List (String × CellAgg)) : Rat :=
  match agg with
  | [] => 0
  | g :: t => t.foldl (fun m x => max m x.2.totalAnnual) g.2.totalAnnual

/-- The hexagon fill opacity of source line 182:
`min(0.8, max(0.3, total / max_donations))`.  Exact rationals replace the
source's floats; for the reachable inputs (the total is one of the values
whose maximum is `maxDonations`) the rational convention `x / 0 = 0`
yields the same clamped value as the numpy quotient. -/
def hexOpacity (total maxDonations : Rat) : Rat :=
  min (4/5) (max (3/10) (total / maxDonations))

/-- The hexagon-trace loop of source lines 172-200.  For each boundary the
matching aggregate row is looked up (`h3_agg[h3_agg['H3_CELL'] == cell]`,
then `iloc[0]`); a boundary without a matching row adds no trace.  The
ring is closed by appending the first vertex; `boundary['lats'][0]` or
`boundary['lons'][0]` on an empty list raises `IndexError`, modelled by
`none`, which the blanket `except` of line 255 turns into the scatter-map
fallback.  The source recomputes `max_donations` identically on every
iteration (line 181); it is hoisted into a parameter here. -/
def buildHexTraces (agg : List (String × CellAgg)) (maxDonations : Rat) :
    List Boundary → Option (List HexTrace)
  | [] => some []
  | b :: bs =>
    match agg.find? fun g => g.1 == b.h3_cell with
    | none => buildHexTraces agg maxDonations bs
    | some g =>
      match b.lats.head?, b.lons.head? with
      | some la0, some lo0 =>
        match buildHexTraces agg maxDonations bs with
        | none => none
        | some ts =>
          some ({ cell := b.h3_cell, lats := b.lats ++ [la0],
                  lons := b.lons ++ [lo0],
                  fillOpacity := hexOpacity g.2.totalAnnual maxDonations } :: ts)
      | _, _ => none

/-- `create_h3_on_the_fly` (source lines 124-257): empty valid data falls
back to the scatter map; the rows are aggregated by H3 cell; an empty
aggregate falls back to the scatter map; boundaries are resolved for the
aggregate's cells; with boundaries the hexagon figure is built (any
exception inside falling back to the scatter map via the `except` of line
255), without boundaries the aggregate markers are drawn. -/
def create_h3_on_the_fly (env : BoundaryEnv)
    (h3Index : Rat → Rat → Nat → String) (df : List Record) (res : Nat) :
    RenderInstruction :=
  let valid_data := validData df
  if valid_data.isEmpty then create_simple_scatter_map df
  else
    let h3_agg := aggregateCells h3Index res df
    if h3_agg.isEmpty then create_simple_scatter_map df
    else
      let bres := get_h3_boundaries_from_snowflake env
        (h3_agg.map fun g => some g.1)
      match bres.boundaries with
      | [] => .aggregateMarkers h3_agg
      | _ :: _ =>
        match buildHexTraces h3_agg (maxTotal h3_agg) bres.boundaries with
        | some traces => .hexagonPolygons traces
        | none => create_simple_scatter_map df

/-- The index of the first strategy in the order S0, S1, S2, S3 whose
entry condition holds, as claim C1 states the conditions: S0 when the
boundary mapping is non-empty, S1 when the aggregate mapping is non-empty,
S2 when at least one record has valid coordinates, S3 otherwise. -/
def firstApplicableStrategy (env : BoundaryEnv)
    (h3Index : Rat → Rat → Nat → String) (df : List Record) (res : Nat) :
    Nat :=
  if (get_h3_boundaries_from_snowflake env
      ((aggregateCells h3Index res df).map fun g => some g.1)).boundaries ≠ []
  then 0
  else if aggregateCells h3Index res df ≠ [] then 1
  else if df.any validCoords then 2
  else 3

/-- A donor with no usable coordinates. -/
def noCoordDonor : Record :=
  { fullName := "X", zipCode := some "29650", graduationYear := some 1999,
    annualDonationAmount := some 50, cumulativeDonationAmount := some 200,
    donorSegment := some "Annual Donor",
    latitude := none, longitude := some (-82) }

/-- Aggregate set whose only cell has total 0: its maximum-valued cell is
the zero cell. -/
def zeroAgg : List (String × CellAgg) :=
  [("c0", ⟨1, 0, 0, 0, 34, -82⟩)]

/-- Aggregate set matching the spec's normalization example: maximum total
1000 and a zero-valued cell. -/
def demoAgg : List (String × CellAgg) :=
  [("a", ⟨2, 1000, 500, 3000, 34, -82⟩), ("b", ⟨1, 0, 0, 0, 35, -81⟩)]

/-- A dataframe value. -/
abbrev Frame := List Record

/-- The heap of live dataframes, made explicit to state what
`apply_filters` does and does not write: each pandas operation used by it
(`df.copy()`, boolean-mask selection) allocates a fresh frame and leaves
its receiver untouched. -/
abbrev Store := List Frame

/-- Contents of the frame a reference points to. -/
def readFrame (s : Store) (i : Nat) : Frame := s.getD i []

/-- Allocate a fresh frame, returning the new store and a reference to the
new frame. -/
def alloc (s : Store) (v : Frame) : Store × Nat := (s ++ [v], s.length)

/-- Contents-level effect of the zip-code stage of `apply_filters`. -/
def zipPure (zipCodes : List String) (v : Frame) : Frame :=
  match zipCodes with
  | [] => v
  | _ :: _ => v.filter fun r => isinStr r.zipCode zipCodes

/-- Contents-level effect of the graduation-year stage. -/
def yearPure (gradYears : Option (Int × Int)) (v : Frame) : Frame :=
  match gradYears with
  | none => v
  | some yr => v.filter fun r =>
      optGe r.graduationYear yr.1 && optLe r.graduationYear yr.2

/-- Contents-level effect of the donation-range stage. -/
def donationPure (donationRange : Option (Rat × Rat)) (v : Frame) : Frame :=
  match donationRange with
  | none => v
  | some dr => v.filter fun r =>
      optGe r.annualDonationAmount dr.1 && optLe r.annualDonationAmount dr.2

/-- Contents-level effect of the donor-segment stage. -/
def segmentPure (donorSegments : List String) (v : Frame) : Frame :=
  match donorSegments with
  | [] => v
  | _ :: _ => v.filter fun r => isinStr r.donorSegment donorSegments

/-- Store-level zip-code stage (source lines 104-105): a non-empty filter
allocates a fresh frame from its mask selection; `filtered_df` is rebound,
no frame is written in place. -/
def zipStage (zipCodes : List String) (st : Store × Nat) : Store × Nat :=
  match zipCodes with
  | [] => st
  | _ :: _ =>
    alloc st.1 ((readFrame st.1 st.2).filter fun r => isinStr r.zipCode zipCodes)

/-- Store-level graduation-year stage (source lines 107-111). -/
def yearStage (gradYears : Option (Int × Int)) (st : Store × Nat) :
    Store × Nat :=
  match gradYears with
  | none => st
  | some yr =>
    alloc st.1 ((readFrame st.1 st.2).filter fun r =>
      optGe r.graduationYear yr.1 && optLe r.graduationYear yr.2)

/-- Store-level donation-range stage (source lines 113-117). -/
def donationStage (donationRange : Option (Rat × Rat)) (st : Store × Nat) :
    Store × Nat :=
  match donationRange with
  | none => st
  | some dr =>
    alloc st.1 ((readFrame st.1 st.2).filter fun r =>
      optGe r.annualDonationAmount dr.1 && optLe r.annualDonationAmount dr.2)

/-- Store-level donor-segment stage (source lines 119-120). -/
def segmentStage (donorSegments : List String) (st : Store × Nat) :
    Store × Nat :=
  match donorSegments with
  | [] => st
  | _ :: _ =>
    alloc st.1 ((readFrame st.1 st.2).filter fun r =>
      isinStr r.donorSegment donorSegments)

/-- `apply_filters` with the dataframe heap explicit: `filtered_df =
df.copy()` allocates a copy of the input frame (line 102), then each
truthy filter allocates a fresh masked frame; the function returns the
final store and the reference to the result frame. -/
def applyFiltersStore (s : Store) (dfRef : Nat) (zipCodes : List String)
    (gradYears : Option (Int × Int)) (donationRange : Option (Rat × Rat))
    (donorSegments : List String) : Store × Nat :=
  segmentStage donorSegments
    (donationStage donationRange
      (yearStage gradYears
        (zipStage zipCodes
          (alloc s (readFrame s dfRef)))))

/-- Invariant threaded through the stages: the store only grew, the
current reference is live, the input frame of store `s0` reads unchanged,
and the current frame holds the value `v`. -/
def StoreInv (s0 : Store) (dfRef : Nat) (v : Frame) (st : Store × Nat) :
    Prop :=
  s0.length ≤ st.1.length ∧ st.2 < st.1.length ∧
  readFrame st.1 dfRef = readFrame s0 dfRef ∧ readFrame st.1 st.2 = v

end DonorGeo

namespace DonorGeo

/-- C2: `apply_filters` returns exactly the records satisfying the
conjunction of all provided predicates (absent filters constrain nothing,
both range predicates inclusive on both bounds, as spelled out in
`filterPred`); in particular filtering by donation range [10000, 999999]
on records with annual amounts 100, 5000, 12000, 300 returns only the
record with amount 12000. -/
theorem applyFilters_conjunction :
    (∀ (df : List Record) (z : List String) (g : Option (Int × Int))
        (d : Option (Rat × Rat)) (s : List String),
      applyFilters df z g d s = df.filter (filterPred z g d s)) ∧
    applyFilters scenarioRoster [] none (some (10000, 999999)) [] =
      [scenarioDonor "C" 12000] := by
  constructor
  · intro df z g d s
    cases z <;> cases g <;> cases d <;> cases s <;>
      simp only [applyFilters, List.filter_filter] <;>
      first
        | (exact (List.filter_true df).symm)
        | (rw [List.filter_congr] ; intro r _ ;
           simp [filterPred, Bool.and_assoc, Bool.and_comm, Bool.and_left_comm])
  · decide

/-- C7: calling `apply_filters` with all four filters empty returns the
full input roster unchanged. -/
theorem applyFilters_all_empty_id (df : List Record) :
    applyFilters df [] none none [] = df := rfl

theorem addToGroup_sizes (gs : List (String × List Record)) (c : String)
    (r : Record) : groupSizes (addToGroup gs c r) = groupSizes gs + 1 := by
  induction gs with
  | nil => simp [addToGroup, groupSizes]
  | cons h t ih =>
    obtain ⟨c', rs⟩ := h
    by_cases hc : c' = c
    · simp [addToGroup, hc, groupSizes]
      omega
    · simp [addToGroup, hc, groupSizes] at ih ⊢
      omega

theorem groupByCell_sizes (h3Index : Rat → Rat → Nat → String) (res : Nat)
    (rows : List Record) :
    groupSizes (groupByCell h3Index res rows) = rows.length := by
  suffices h : ∀ acc, groupSizes
      (rows.foldl (fun acc r => addToGroup acc (cellOf h3Index res r) r) acc) =
      groupSizes acc + rows.length by
    simpa [groupByCell, groupSizes] using h []
  induction rows with
  | nil => intro acc; simp
  | cons r t ih =>
    intro acc
    simp only [List.foldl_cons, List.length_cons, ih, addToGroup_sizes]
    omega

theorem sumCounts_map_agg (gs : List (String × List Record)) :
    sumCounts (gs.map fun g => (g.1, aggOfGroup g.2)) = groupSizes gs := by
  induction gs with
  | nil => rfl
  | cons h t ih =>
    simp only [sumCounts, groupSizes, List.map_cons, List.sum_cons,
      List.map_map] at ih ⊢
    rw [ih]
    rfl

theorem sumCounts_insert (g : String × CellAgg) (l : List (String × CellAgg)) :
    sumCounts (insertByTotalDesc g l) = g.2.donorCount + sumCounts l := by
  induction l with
  | nil => simp [insertByTotalDesc, sumCounts]
  | cons h t ih =>
    simp only [insertByTotalDesc]
    split
    · simp [sumCounts]
    · simp only [sumCounts, List.map_cons, List.sum_cons] at ih ⊢
      omega

theorem sumCounts_sort (l : List (String × CellAgg)) :
    sumCounts (sortByTotalDesc l) = sumCounts l := by
  induction l with
  | nil => rfl
  | cons h t ih =>
    have : sortByTotalDesc (h :: t) = insertByTotalDesc h (sortByTotalDesc t) := rfl
    rw [this, sumCounts_insert, ih]
    simp [sumCounts]

theorem valid4_and_validCoords (r : Record) :
    (valid4 r && validCoords r) = valid4 r := by
  obtain ⟨nm, z, g, a, cu, s, la, lo⟩ := r
  cases la <;> cases lo <;> cases a <;> cases cu <;> rfl

theorem valid4_filter_validCoords (df : List Record) :
    (df.filter validCoords).filter valid4 = df.filter valid4 := by
  rw [List.filter_filter]
  exact List.filter_congr fun r _ => valid4_and_validCoords r

/-- C3 (amended): the aggregation never assigns a cell to a record with
null coordinates (dropping the invalid-coordinate records does not change
the mapping), and the per-cell counts sum to the number of rows that are
non-null in all four used columns — not to the number of
valid-coordinate records, see `aggregate_count_not_validCoords`. -/
theorem aggregate_ignores_invalid_and_counts
    (h3Index : Rat → Rat → Nat → String) (res : Nat) (df : List Record) :
    aggregateCells h3Index res df =
      aggregateCells h3Index res (df.filter validCoords) ∧
    sumCounts (aggregateCells h3Index res df) = (validData df).length := by
  constructor
  · unfold aggregateCells validData
    rw [valid4_filter_validCoords]
  · unfold aggregateCells validData
    rw [sumCounts_sort, sumCounts_map_agg, groupByCell_sizes]

/-- C3 counterexample: for a roster holding one donor with valid
coordinates but a null annual donation amount, the per-cell counts sum to
0 while the roster has 1 valid-coordinate record, refuting the claimed
equality. -/
theorem aggregate_count_not_validCoords :
    ¬ (sumCounts (aggregateCells constIndex 8 [nullAnnualDonor]) =
       ([nullAnnualDonor].filter validCoords).length) := by decide

/-- C4: when the single probe raises a capability-not-found error, the
resolver returns normally with an empty mapping and
`function_available = False`, after exactly one probe query and zero
per-cell boundary queries. -/
theorem boundaryResolver_unavailable (env : BoundaryEnv)
    (cells : List (Option String)) (msg : String)
    (hp : env.probe = .error msg) (hcap : isCapNotFound msg = true)
    (hne : (cells.take 50).filterMap id ≠ []) :
    get_h3_boundaries_from_snowflake env cells =
      ⟨[], some false, 1, []⟩ := by
  have hlen : ¬ cells.length = 0 := by
    intro h0
    rw [List.length_eq_zero] at h0
    subst h0
    simp at hne
  unfold get_h3_boundaries_from_snowflake
  rw [if_neg hlen, hp]
  have hemp : ((cells.take 50).filterMap id).isEmpty = false := by
    rw [List.isEmpty_eq_false]
    exact hne
  simp [hemp]

/-- Witness for C4 at a concrete environment and cell list. -/
theorem boundaryResolver_unavailable_witness :
    unavailableEnv.probe =
      .error "Unknown function H3_CELL_TO_BOUNDARY_WKT" ∧
    isCapNotFound "Unknown function H3_CELL_TO_BOUNDARY_WKT" = true ∧
    ([some testCell].take 50).filterMap id ≠ [] ∧
    get_h3_boundaries_from_snowflake unavailableEnv [some testCell] =
      ⟨[], some false, 1, []⟩ :=
  ⟨rfl, by decide, by decide,
    boundaryResolver_unavailable unavailableEnv [some testCell]
      "Unknown function H3_CELL_TO_BOUNDARY_WKT" rfl (by decide) (by decide)⟩

theorem processCell_length (env : BoundaryEnv) (acc : List Boundary)
    (cell : String) : (processCell env acc cell).length ≤ acc.length + 1 := by
  unfold processCell
  cases env.fetch cell with
  | error e => simp
  | ok wkt =>
    dsimp only
    split
    · split
      · simp
      · simp
    · simp

theorem processFold_length (env : BoundaryEnv) (l : List String)
    (acc : List Boundary) :
    (l.foldl (processCell env) acc).length ≤ acc.length + l.length := by
  induction l generalizing acc with
  | nil => simp
  | cons c t ih =>
    have hstep := processCell_length env acc c
    have htail := ih (processCell env acc c)
    simp only [List.foldl_cons, List.length_cons]
    omega

/-- C8: a boundary-resolution pass requests boundaries only for cells
drawn, in input order, from the non-null values among the first 50
candidates; it issues at most 10 per-cell requests, and the result mapping
never holds more than 10 cells. -/
theorem boundaryResolver_request_cap (env : BoundaryEnv)
    (cells : List (Option String)) :
    List.Sublist (get_h3_boundaries_from_snowflake env cells).requested
      ((cells.take 50).filterMap id) ∧
    (get_h3_boundaries_from_snowflake env cells).requested.length ≤ 10 ∧
    (get_h3_boundaries_from_snowflake env cells).boundaries.length ≤ 10 := by
  unfold get_h3_boundaries_from_snowflake
  split
  · exact ⟨List.nil_sublist _, by simp, by simp⟩
  · dsimp only
    split
    · exact ⟨List.nil_sublist _, by simp, by simp⟩
    · cases hpr : env.probe with
      | error e => exact ⟨List.nil_sublist _, by simp, by simp⟩
      | ok u =>
        dsimp only
        refine ⟨List.take_sublist _ _, ?_, ?_⟩
        · simp
        · have hfold := processFold_length env
            (((cells.take 50).filterMap id).take 10) []
          have htk := List.length_take_le 10 ((cells.take 50).filterMap id)
          simp only [List.length_nil, Nat.zero_add] at hfold
          exact Nat.le_trans hfold htk

/-- C5 failing input: a response whose longitude tokens never parse while
its latitude tokens do.  The pass resolves the cell with three latitudes
and zero longitudes even though not a single (lat, lon) vertex pair is
fully valid, because the source appends `float(lat)` before `float(lon)`
can raise.  The third conjunct checks the skip-and-continue behaviour the
claim also states: a transport error on cell "a" skips it and cell "b" is
still resolved. -/
theorem boundary_latlon_desync :
    (get_h3_boundaries_from_snowflake desyncEnv [some testCell]).boundaries =
      [⟨testCell, ["1.0", "2.0", "3.0"], []⟩] ∧
    validPairCount "POLYGON((x 1.0, x 2.0, x 3.0))" = 0 ∧
    (get_h3_boundaries_from_snowflake skipEnv [some "a", some "b"]).boundaries =
      [⟨"b", ["34.5", "34.6", "34.7", "34.5"],
        ["-82.1", "-82.2", "-82.3", "-82.1"]⟩] :=
  ⟨by decide, by decide, by decide⟩

/-- C6 counterexample: for the non-empty aggregate set whose only cell has
total 0, the maximum-valued cell is that zero cell, and its computed
opacity is the floor 0.3, not the claimed ceiling 0.8 (the claim demands
both at once for this set). -/
theorem opacity_zero_max_cell :
    hexOpacity 0 (maxTotal zeroAgg) = 3/10 ∧
    ¬ hexOpacity 0 (maxTotal zeroAgg) = 4/5 := by
  have hm : maxTotal zeroAgg = 0 := rfl
  rw [hm]
  unfold hexOpacity
  rw [zero_div]
  norm_num

/-- C6 (amended): the fill opacity is the linear normalization against the
maximum total, clamped to [0.3, 0.8]; provided the maximum total of the
(non-empty) aggregate set is non-zero, a cell with total 0 gets exactly
0.3 and the maximum-valued cell exactly 0.8. -/
theorem hexOpacity_clamped (agg : List (String × CellAgg))
    (g : String × CellAgg) (hg : g ∈ agg) (hmax : maxTotal agg ≠ 0) :
    hexOpacity g.2.totalAnnual (maxTotal agg) =
      min (4/5) (max (3/10) (g.2.totalAnnual / maxTotal agg)) ∧
    (g.2.totalAnnual = 0 →
      hexOpacity g.2.totalAnnual (maxTotal agg) = 3/10) ∧
    (g.2.totalAnnual = maxTotal agg →
      hexOpacity g.2.totalAnnual (maxTotal agg) = 4/5) := by
  refine ⟨rfl, ?_, ?_⟩
  · intro h0
    rw [h0]
    unfold hexOpacity
    rw [zero_div]
    norm_num
  · intro hm
    rw [hm]
    unfold hexOpacity
    rw [div_self hmax]
    norm_num

/-- Witness for C6 on the spec's example set: maximum total 1000, the
zero cell gets 0.3 and the maximum cell 0.8. -/
theorem hexOpacity_clamped_witness :
    ("b", (⟨1, 0, 0, 0, 35, -81⟩ : CellAgg)) ∈ demoAgg ∧
    maxTotal demoAgg ≠ 0 ∧
    hexOpacity 0 (maxTotal demoAgg) = 3/10 ∧
    hexOpacity 1000 (maxTotal demoAgg) = 4/5 := by
  refine ⟨by decide, by decide, ?_, ?_⟩
  · exact (hexOpacity_clamped demoAgg ("b", ⟨1, 0, 0, 0, 35, -81⟩)
      (by decide) (by decide)).2.1 rfl
  · exact (hexOpacity_clamped demoAgg ("a", ⟨2, 1000, 500, 3000, 34, -82⟩)
      (by decide) (by decide)).2.2 (by decide)

theorem applyFilters_nil (z : List String) (g : Option (Int × Int))
    (d : Option (Rat × Rat)) (s : List String) :
    applyFilters [] z g d s = [] := by
  cases z <;> cases g <;> cases d <;> cases s <;> rfl

theorem valid4_eq_validCoords_and (r : Record) :
    valid4 r = (validCoords r &&
      (r.annualDonationAmount.isSome && r.cumulativeDonationAmount.isSome)) := by
  obtain ⟨nm, z, g, a, cu, s, la, lo⟩ := r
  cases la <;> cases lo <;> rfl

theorem aggregateCells_nil_of_validData
    (h3Index : Rat → Rat → Nat → String) (res : Nat) (df : List Record)
    (h : validData df = []) : aggregateCells h3Index res df = [] := by
  unfold aggregateCells groupByCell
  rw [h]
  rfl

/-- C9: an empty roster passes through the filter engine unchanged (to an
empty result); a roster with no valid-coordinate record aggregates to an
empty mapping; and on such a roster the render pipeline terminates in the
explicit no-data instruction instead of raising. -/
theorem empty_or_invalid_propagates (env : BoundaryEnv)
    (h3Index : Rat → Rat → Nat → String) (res : Nat)
    (z : List String) (g : Option (Int × Int)) (d : Option (Rat × Rat))
    (s : List String) (df : List Record)
    (h : ∀ r ∈ df, validCoords r = false) :
    applyFilters [] z g d s = [] ∧
    aggregateCells h3Index res df = [] ∧
    create_h3_on_the_fly env h3Index df res = .noData := by
  have hvc : df.filter validCoords = [] := by
    apply List.filter_eq_nil_iff.mpr
    intro r hr
    simp [h r hr]
  have hvd : validData df = [] := by
    unfold validData
    apply List.filter_eq_nil_iff.mpr
    intro r hr
    rw [valid4_eq_validCoords_and, h r hr]
    simp
  refine ⟨applyFilters_nil z g d s,
    aggregateCells_nil_of_validData h3Index res df hvd, ?_⟩
  unfold create_h3_on_the_fly
  rw [hvd]
  unfold create_simple_scatter_map
  rw [hvc]
  rfl

theorem sumCounts_aggregateCells (h3Index : Rat → Rat → Nat → String)
    (res : Nat) (df : List Record) :
    sumCounts (aggregateCells h3Index res df) = (validData df).length := by
  unfold aggregateCells validData
  rw [sumCounts_sort, sumCounts_map_agg, groupByCell_sizes]

theorem aggregateCells_ne_nil (h3Index : Rat → Rat → Nat → String)
    (res : Nat) (df : List Record) (h : validData df ≠ []) :
    aggregateCells h3Index res df ≠ [] := by
  intro h0
  have hc := sumCounts_aggregateCells h3Index res df
  rw [h0] at hc
  have : (validData df).length = 0 := by simpa [sumCounts] using hc.symm
  exact h (List.length_eq_zero.mp this)

theorem processFold_lats (env : BoundaryEnv) (l : List String)
    (acc : List Boundary) (hacc : ∀ b ∈ acc, 3 ≤ b.lats.length) :
    ∀ b ∈ l.foldl (processCell env) acc, 3 ≤ b.lats.length := by
  induction l generalizing acc with
  | nil => simpa using hacc
  | cons c t ih =>
    simp only [List.foldl_cons]
    apply ih
    intro b hb
    unfold processCell at hb
    cases hfc : env.fetch c with
    | error e => rw [hfc] at hb; exact hacc b hb
    | ok wkt =>
      rw [hfc] at hb
      dsimp only at hb
      split at hb
      · split at hb
        · rcases List.mem_append.mp hb with hmem | hmem
          · exact hacc b hmem
          · rcases List.mem_singleton.mp hmem with rfl
            assumption
        · exact hacc b hb
      · exact hacc b hb

theorem resolver_lats_ge3 (env : BoundaryEnv) (cells : List (Option String)) :
    ∀ b ∈ (get_h3_boundaries_from_snowflake env cells).boundaries,
      3 ≤ b.lats.length := by
  unfold get_h3_boundaries_from_snowflake
  split
  · simp
  · dsimp only
    split
    · simp
    · cases env.probe with
      | error e => simp
      | ok u =>
        exact processFold_lats env _ [] (by simp)

theorem buildHexTraces_isSome (agg : List (String × CellAgg)) (m : Rat)
    (bs : List Boundary) (h : ∀ b ∈ bs, b.lats ≠ [] ∧ b.lons ≠ []) :
    (buildHexTraces agg m bs).isSome = true := by
  induction bs with
  | nil => rfl
  | cons b t ih =>
    obtain ⟨hla, hlo⟩ := h b (List.mem_cons_self b t)
    have htail := ih fun x hx => h x (List.mem_cons_of_mem b hx)
    unfold buildHexTraces
    cases hf : agg.find? fun g => g.1 == b.h3_cell with
    | none => exact htail
    | some g =>
      dsimp only
      cases hbl : b.lats with
      | nil => exact absurd hbl hla
      | cons la0 tl =>
        cases hbo : b.lons with
        | nil => exact absurd hbo hlo
        | cons lo0 tlo =>
          dsimp only [List.head?]
          cases hrec : buildHexTraces agg m t with
          | none => rw [hrec] at htail; simp at htail
          | some ts => rfl

theorem any_eq_not_isEmpty_filter (p : Record → Bool) (df : List Record) :
    df.any p = !(df.filter p).isEmpty := by
  induction df with
  | nil => rfl
  | cons r t ih => cases hp : p r <;> simp [List.filter_cons, hp, ih]

theorem scatter_strategy (df : List Record) :
    strategyIndex (create_simple_scatter_map df) =
      if df.any validCoords then 2 else 3 := by
  rw [any_eq_not_isEmpty_filter]
  simp only [create_simple_scatter_map]
  cases hf : (df.filter validCoords).isEmpty <;> simp [strategyIndex, hf]

/-- C1: the visualization produced by `create_h3_on_the_fly` is always the
first strategy in the order S0 HexagonPolygons, S1 AggregateMarkers, S2
RawPoints, S3 Empty whose entry condition holds.  The hypothesis states
the interface contract of the boundary capability (spec section 6:
`boundaryOf` answers with polygon text): every resolved boundary carries
at least one longitude value.  The source meets the latitude half by
construction (`resolver_lats_ge3`) but can violate the longitude half on
malformed responses — see `boundary_latlon_desync`. -/
theorem renderStrategy_first_match (env : BoundaryEnv)
    (h3Index : Rat → Rat → Nat → String) (df : List Record) (res : Nat)
    (hwf : ∀ b ∈ (get_h3_boundaries_from_snowflake env
        ((aggregateCells h3Index res df).map fun g => some g.1)).boundaries,
      b.lons ≠ []) :
    strategyIndex (create_h3_on_the_fly env h3Index df res) =
      firstApplicableStrategy env h3Index df res := by
  by_cases hv : validData df = []
  · have hagg : aggregateCells h3Index res df = [] :=
      aggregateCells_nil_of_validData _ _ _ hv
    have hres : get_h3_boundaries_from_snowflake env
        ((aggregateCells h3Index res df).map fun g => some g.1) =
        ⟨[], none, 0, []⟩ := by
      rw [hagg]; rfl
    simp only [create_h3_on_the_fly, firstApplicableStrategy, hv, hagg, hres]
    simp only [List.isEmpty_nil, if_true]
    rw [scatter_strategy]
    have hres0 : get_h3_boundaries_from_snowflake env [] = ⟨[], none, 0, []⟩ :=
      rfl
    simp [hres0]
  · have hvb : (validData df).isEmpty = false := by
      rw [List.isEmpty_eq_false]; exact hv
    have haggne : aggregateCells h3Index res df ≠ [] :=
      aggregateCells_ne_nil h3Index res df hv
    have haggb : (aggregateCells h3Index res df).isEmpty = false := by
      rw [List.isEmpty_eq_false]; exact haggne
    simp only [create_h3_on_the_fly, firstApplicableStrategy, hvb, haggb,
      Bool.false_eq_true, if_false, if_pos haggne]
    cases hb : (get_h3_boundaries_from_snowflake env
        ((aggregateCells h3Index res df).map fun g => some g.1)).boundaries with
    | nil =>
      rw [if_neg (by simp)]
      rfl
    | cons b0 bt =>
      have hlw : ∀ x ∈ b0 :: bt, x.lats ≠ [] ∧ x.lons ≠ [] := by
        intro x hx
        rw [← hb] at hx
        refine ⟨?_, hwf x hx⟩
        have h3 := resolver_lats_ge3 env
          ((aggregateCells h3Index res df).map fun g => some g.1) x hx
        intro hnil
        rw [hnil] at h3
        simp at h3
      have hsome := buildHexTraces_isSome (aggregateCells h3Index res df)
        (maxTotal (aggregateCells h3Index res df)) (b0 :: bt) hlw
      rw [if_pos (List.cons_ne_nil b0 bt)]
      cases hbu : buildHexTraces (aggregateCells h3Index res df)
          (maxTotal (aggregateCells h3Index res df)) (b0 :: bt) with
      | none => rw [hbu] at hsome; simp at hsome
      | some ts => simp [hbu, strategyIndex]

/-- Witness for C9 on a one-donor roster with a null latitude. -/
theorem empty_or_invalid_propagates_witness :
    (∀ r ∈ [noCoordDonor], validCoords r = false) ∧
    (applyFilters [] [] none none [] = [] ∧
     aggregateCells constIndex 8 [noCoordDonor] = [] ∧
     create_h3_on_the_fly unavailableEnv constIndex [noCoordDonor] 8 =
       .noData) :=
  ⟨by decide, empty_or_invalid_propagates unavailableEnv constIndex 8
    [] none none [] [noCoordDonor] (by decide)⟩

/-- Witness for C1 on a one-donor roster with an unavailable boundary
capability: the pipeline lands on S1 and so does the first-applicable
computation. -/
theorem renderStrategy_first_match_witness :
    (∀ b ∈ (get_h3_boundaries_from_snowflake unavailableEnv
        ((aggregateCells constIndex 8 [scenarioDonor "A" 100]).map
          fun g => some g.1)).boundaries,
      b.lons ≠ []) ∧
    strategyIndex
        (create_h3_on_the_fly unavailableEnv constIndex
          [scenarioDonor "A" 100] 8) =
      firstApplicableStrategy unavailableEnv constIndex
        [scenarioDonor "A" 100] 8 :=
  ⟨by decide, renderStrategy_first_match unavailableEnv constIndex
    [scenarioDonor "A" 100] 8 (by decide)⟩

theorem readFrame_append_lt (s : Store) (v : Frame) (i : Nat)
    (h : i < s.length) : readFrame (s ++ [v]) i = readFrame s i := by
  unfold readFrame
  exact List.getD_append _ _ _ _ h

theorem readFrame_append_self (s : Store) (v : Frame) :
    readFrame (s ++ [v]) s.length = v := by
  unfold readFrame
  rw [List.getD_append_right _ _ _ _ (Nat.le_refl _), Nat.sub_self]
  rfl

theorem inv_alloc (s0 : Store) (dfRef : Nat) (v : Frame) (st : Store × Nat)
    (q : Record → Bool) (hi : dfRef < s0.length)
    (h : StoreInv s0 dfRef v st) :
    StoreInv s0 dfRef (v.filter q)
      (alloc st.1 ((readFrame st.1 st.2).filter q)) := by
  obtain ⟨hlen, href, hdf, hval⟩ := h
  have hdfi : dfRef < st.1.length := Nat.lt_of_lt_of_le hi hlen
  refine ⟨?_, ?_, ?_, ?_⟩
  · simp only [alloc, List.length_append, List.length_cons, List.length_nil]
    omega
  · simp [alloc]
  · show readFrame (st.1 ++ [(readFrame st.1 st.2).filter q]) dfRef =
      readFrame s0 dfRef
    rw [readFrame_append_lt _ _ _ hdfi]
    exact hdf
  · show readFrame (st.1 ++ [(readFrame st.1 st.2).filter q]) st.1.length =
      v.filter q
    rw [readFrame_append_self, hval]

theorem inv_init (s : Store) (dfRef : Nat) (hi : dfRef < s.length) :
    StoreInv s dfRef (readFrame s dfRef) (alloc s (readFrame s dfRef)) := by
  refine ⟨?_, ?_, ?_, ?_⟩
  · simp [alloc]
  · simp [alloc]
  · show readFrame (s ++ [readFrame s dfRef]) dfRef = readFrame s dfRef
    rw [readFrame_append_lt _ _ _ hi]
  · show readFrame (s ++ [readFrame s dfRef]) s.length = readFrame s dfRef
    rw [readFrame_append_self]

theorem inv_zipStage (s0 : Store) (dfRef : Nat) (v : Frame)
    (st : Store × Nat) (z : List String) (hi : dfRef < s0.length)
    (h : StoreInv s0 dfRef v st) :
    StoreInv s0 dfRef (zipPure z v) (zipStage z st) := by
  cases z with
  | nil => exact h
  | cons a t => exact inv_alloc s0 dfRef v st _ hi h

theorem inv_yearStage (s0 : Store) (dfRef : Nat) (v : Frame)
    (st : Store × Nat) (g : Option (Int × Int)) (hi : dfRef < s0.length)
    (h : StoreInv s0 dfRef v st) :
    StoreInv s0 dfRef (yearPure g v) (yearStage g st) := by
  cases g with
  | none => exact h
  | some yr => exact inv_alloc s0 dfRef v st _ hi h

theorem inv_donationStage (s0 : Store) (dfRef : Nat) (v : Frame)
    (st : Store × Nat) (d : Option (Rat × Rat)) (hi : dfRef < s0.length)
    (h : StoreInv s0 dfRef v st) :
    StoreInv s0 dfRef (donationPure d v) (donationStage d st) := by
  cases d with
  | none => exact h
  | some dr => exact inv_alloc s0 dfRef v st _ hi h

theorem inv_segmentStage (s0 : Store) (dfRef : Nat) (v : Frame)
    (st : Store × Nat) (sg : List String) (hi : dfRef < s0.length)
    (h : StoreInv s0 dfRef v st) :
    StoreInv s0 dfRef (segmentPure sg v) (segmentStage sg st) := by
  cases sg with
  | nil => exact h
  | cons a t => exact inv_alloc s0 dfRef v st _ hi h

theorem applyFilters_as_stages (df : Frame) (z : List String)
    (g : Option (Int × Int)) (d : Option (Rat × Rat)) (sg : List String) :
    applyFilters df z g d sg =
      segmentPure sg (donationPure d (yearPure g (zipPure z df))) := rfl

/-- C10: `apply_filters` never writes the input frame — after the call the
store reads the input frame unchanged at its reference — and the returned
frame holds exactly the pure filter result, built from the initial
`df.copy()`. -/
theorem applyFiltersStore_no_mutation (s : Store) (dfRef : Nat)
    (z : List String) (g : Option (Int × Int)) (d : Option (Rat × Rat))
    (sg : List String) (hi : dfRef < s.length) :
    readFrame (applyFiltersStore s dfRef z g d sg).1 dfRef =
      readFrame s dfRef ∧
    readFrame (applyFiltersStore s dfRef z g d sg).1
        (applyFiltersStore s dfRef z g d sg).2 =
      applyFilters (readFrame s dfRef) z g d sg := by
  have h0 := inv_init s dfRef hi
  have h1 := inv_zipStage s dfRef _ _ z hi h0
  have h2 := inv_yearStage s dfRef _ _ g hi h1
  have h3 := inv_donationStage s dfRef _ _ d hi h2
  have h4 := inv_segmentStage s dfRef _ _ sg hi h3
  obtain ⟨-, -, hdf, hval⟩ := h4
  rw [applyFilters_as_stages]
  exact ⟨hdf, hval⟩

/-- Witness for C10 on a one-frame store. -/
theorem applyFiltersStore_no_mutation_witness :
    0 < [scenarioRoster].length ∧
    (readFrame (applyFiltersStore [scenarioRoster] 0 ["29680"] none none
        []).1 0 = readFrame [scenarioRoster] 0 ∧
     readFrame (applyFiltersStore [scenarioRoster] 0 ["29680"] none none
          []).1
        (applyFiltersStore [scenarioRoster] 0 ["29680"] none none []).2 =
      applyFilters (readFrame [scenarioRoster] 0) ["29680"] none none []) :=
  ⟨by decide, applyFiltersStore_no_mutation [scenarioRoster] 0 ["29680"]
    none none [] (by decide)⟩

end DonorGeo
